import Mathlib

/-
  Verification development for the AutiConnect Telegram bot.

  The Python modules (db.py, llm_integration.py, ai_mediation.py,
  group_management.py, activity_management.py, user_profile.py, main.py)
  are shallowly embedded below.  Text is `List Char`; the Mongo store is a
  record of lists; the LLM HTTP call is a function of an explicit oracle
  environment; wall-clock instants are integers counting seconds.
-/

namespace AC

/-! ### Text utilities (Python `str` operations used by the sources) -/

/-- Model of Python `str.lower` restricted to the character ranges that occur
in the fixed keyword vocabularies: ASCII upper case and the Latin-1 upper-case
letters (U+00C0 to U+00DE except the multiplication sign). -/
def pyLowerChar (c : Char) : Char :=
  if 65 ≤ c.toNat ∧ c.toNat ≤ 90 then Char.ofNat (c.toNat + 32)
  else if 192 ≤ c.toNat ∧ c.toNat ≤ 222 ∧ c.toNat ≠ 215 then Char.ofNat (c.toNat + 32)
  else c

def pyLower (s : List Char) : List Char := s.map pyLowerChar

/-- `firstMatches pat t` holds when `pat` is an initial segment of `t`. -/
def firstMatches : List Char → List Char → Bool
  | [], _ => true
  | _ :: _, [] => false
  | p :: ps, t :: ts => p == t && firstMatches ps ts

/-- Python `pat in t` for strings: contiguous-substring containment. -/
def containsSeq (pat : List Char) : List Char → Bool
  | [] => firstMatches pat []
  | t :: ts => firstMatches pat (t :: ts) || containsSeq pat ts

/-- Python `text.split(sep)` for a one-character separator. -/
def splitOnChar (sep : Char) : List Char → List (List Char)
  | [] => [[]]
  | c :: rest =>
    let r := splitOnChar sep rest
    if c == sep then [] :: r
    else
      match r with
      | h :: t => (c :: h) :: t
      | [] => [[c]]

def isPyDigit (c : Char) : Bool := 48 ≤ c.toNat && c.toNat ≤ 57

def isPySpace (c : Char) : Bool := c == ' ' || c == '\t' || c == '\n' || c == '\r'

def stripSpaces (s : List Char) : List Char :=
  ((s.dropWhile isPySpace).reverse.dropWhile isPySpace).reverse

def digitsVal (ds : List Char) : Nat :=
  ds.foldl (fun a c => a * 10 + (c.toNat - 48)) 0

/-- Model of Python `int(text)` on user input: optional surrounding
whitespace, an optional sign, then a non-empty run of decimal digits;
anything else raises `ValueError`, modelled as `none`. -/
def pyInt (s : List Char) : Option Int :=
  match stripSpaces s with
  | [] => none
  | '+' :: ds => if !ds.isEmpty && ds.all isPyDigit then some (Int.ofNat (digitsVal ds)) else none
  | '-' :: ds => if !ds.isEmpty && ds.all isPyDigit then some (-(Int.ofNat (digitsVal ds))) else none
  | ds => if ds.all isPyDigit then some (Int.ofNat (digitsVal ds)) else none

def startsWithSlash (s : List Char) : Bool :=
  match s with
  | '/' :: _ => true
  | _ => false

/-- Python `", ".join(items)`. -/
def joinComma : List (List Char) → List Char
  | [] => []
  | [x] => x
  | x :: xs => x ++ (", ").data ++ joinComma xs

def nl : List Char := [Char.ofNat 10]

def intText (n : Int) : List Char := (toString n).data

/-! ### Data model (documents of db.py) -/

structure AISettings where
  intervention_frequency : List Char
  activity_suggestions : Bool
  conflict_mediation : Bool
  support_private_chats : Bool
deriving DecidableEq

/-- The settings dictionary written by `Database.create_group` (db.py 182-187). -/
def default_ai_settings : AISettings :=
  ⟨("medium").data, true, true, true⟩

structure Group where
  group_id : Int
  name : List Char
  theme : List Char
  description : List Char
  created_by : Int
  members : List Int
  max_members : Int
  ai_mediator_enabled : Bool
  ai_mediator_settings : AISettings
deriving DecidableEq

structure Profile where
  age : Option Int
  gender : Option (List Char)
  interests : List (List Char)
  anxiety_triggers : List (List Char)
  comm_style : List Char
deriving DecidableEq

structure UserDoc where
  user_id : Int
  name : List Char
  role : List Char
  groups : List Int
  profile : Profile
deriving DecidableEq

structure Msg where
  user_id : Int
  group_id : Option Int
  text : List Char
  timestamp : Int
deriving DecidableEq

structure Activity where
  group_id : Int
  activity_type : List Char
  title : List Char
  description : List Char
  created_by : Int
  duration : Int
  status : List Char
  ai_guidance_enabled : Bool
deriving DecidableEq

structure DbState where
  users : List UserDoc
  groups : List Group
  activities : List Activity
  messages : List Msg
  interactions : Nat
deriving DecidableEq

/-! ### Database operations (db.py) -/

def get_user (db : DbState) (uid : Int) : Option UserDoc :=
  db.users.find? (fun u => u.user_id == uid)

def get_group (db : DbState) (gid : Int) : Option Group :=
  db.groups.find? (fun g => g.group_id == gid)

/-- `$addToSet` of a group id into a user's membership list. -/
def addGroupToUser (u : UserDoc) (gid : Int) : UserDoc :=
  if gid ∈ u.groups then u else { u with groups := u.groups ++ [gid] }

/-- `Database.create_group` (db.py 155-206): upsert of the full group document
(AI mediator enabled by default, creator the sole initial member), then
`$addToSet` of the group into the creator's membership list. -/
def create_group (db : DbState) (gid : Int) (name theme desc : List Char)
    (created_by : Int) (maxMembers : Int) : DbState :=
  let g : Group := ⟨gid, name, theme, desc, created_by, [created_by], maxMembers,
    true, default_ai_settings⟩
  let groups2 :=
    if db.groups.any (fun x => x.group_id == gid) then
      db.groups.map (fun x => if x.group_id == gid then g else x)
    else db.groups ++ [g]
  let users2 := db.users.map (fun u => if u.user_id == created_by then addGroupToUser u gid else u)
  { db with groups := groups2, users := users2 }

/-- `Database.update_group_ai_settings` (db.py 208-227): `$set` of the
`ai_mediator_settings` field only; no other field of the group is written. -/
def update_group_ai_settings (db : DbState) (gid : Int) (s : AISettings) : DbState :=
  { db with groups := db.groups.map (fun g =>
      if g.group_id == gid then { g with ai_mediator_settings := s } else g) }

/-- `Database.create_activity` (db.py 279-315): inserts a new activity document
with status `scheduled` and AI guidance enabled by default. -/
def create_activity (db : DbState) (gid : Int) (activity_type title desc : List Char)
    (created_by : Int) (duration : Int) : DbState :=
  { db with activities := db.activities ++
      [⟨gid, activity_type, title, desc, created_by, duration, ("scheduled").data, true⟩] }

/-- `Database.store_message` (db.py 354-389): unconditional insert of the
message document (timestamped now). -/
def store_message (db : DbState) (uid : Int) (gid : Option Int) (text : List Char)
    (now : Int) : DbState :=
  { db with messages := ⟨uid, gid, text, now⟩ :: db.messages }

/-- `Database.store_ai_interaction` (db.py 411-439): appends an audit record;
only the interactions collection changes. -/
def store_ai_interaction (db : DbState) : DbState :=
  { db with interactions := db.interactions + 1 }

def msg_matches (gidQ uidQ : Option Int) (m : Msg) : Bool :=
  (match gidQ with
   | none => true
   | some g => m.group_id == some g) &&
  (match uidQ with
   | none => true
   | some u => m.user_id == u)

/-- Newest-first order used by `.sort("timestamp", -1)`. -/
def newer (a b : Msg) : Prop := b.timestamp ≤ a.timestamp

instance : DecidableRel newer := fun a b => inferInstanceAs (Decidable (b.timestamp ≤ a.timestamp))

instance : IsTotal Msg newer := ⟨fun a b => le_total b.timestamp a.timestamp⟩

instance : IsTrans Msg newer := ⟨fun _ _ _ h1 h2 => le_trans h2 h1⟩

/-- `Database.get_recent_messages` (db.py 391-409): filter by the optional
group/user query, sort by timestamp descending (newest first), limit. -/
def get_recent_messages (db : DbState) (gidQ uidQ : Option Int) (limit : Nat) : List Msg :=
  (List.insertionSort newer (db.messages.filter (msg_matches gidQ uidQ))).take limit

/-! ### LLM integration (llm_integration.py) -/

/-- Outcome of the HTTP POST in `LLMIntegration._call_llm_api`: either an
exception is raised somewhere in the request or JSON extraction, or a response
with a status code arrives whose extracted completion is `content`. -/
inductive ApiResult where
  | raised : ApiResult
  | reply (status : Nat) (content : List Char) : ApiResult
deriving DecidableEq

/-- External configuration and network behaviour seen by one oracle call. -/
structure OracleEnv where
  api_key : Option (List Char)
  result : ApiResult
deriving DecidableEq

def erro_api_key : List Char :=
  ("Erro: API_KEY não configurada. Por favor, configure a variável de ambiente LLM_API_KEY.").data

def apology_tech : List Char :=
  ("Desculpe, estou tendo dificuldades técnicas no momento.").data

def apology_request : List Char :=
  ("Desculpe, ocorreu um erro ao processar sua solicitação.").data

/-- `LLMIntegration._call_llm_api` (llm_integration.py 259-303): missing key
and every failure are mapped to fixed strings inside the call boundary; a
status-200 response yields the extracted completion verbatim. -/
def call_llm_api (env : OracleEnv) (prompt : List Char) : List Char :=
  match env.api_key with
  | none => erro_api_key
  | some _ =>
    match env.result with
    | ApiResult.raised => apology_request
    | ApiResult.reply status content => if status == 200 then content else apology_tech

/-- Keyword vocabulary of `_analyze_for_alert` (llm_integration.py 317-321). -/
def alert_keywords : List (List Char) :=
  [("suicídio").data, ("suicida").data, ("matar").data, ("morrer").data, ("machucar").data,
   ("desespero").data, ("desesperado").data, ("desesperada").data, ("emergência").data,
   ("crise").data, ("pânico").data, ("violência").data, ("abuso").data, ("socorro").data]

/-- `LLMIntegration._analyze_for_alert` (llm_integration.py 305-332): lowercases
the text and scans for any alert keyword; the `context_messages` argument is
never consulted. -/
def analyze_for_alert (text : List Char) (context_messages : List Msg) : Bool :=
  alert_keywords.any (fun kw => containsSeq kw (pyLower text))

/-- Keyword vocabulary of `needs_support` (ai_mediation.py 172-176). -/
def support_keywords : List (List Char) :=
  [("ajuda").data, ("ansioso").data, ("ansiosa").data, ("nervoso").data, ("nervosa").data,
   ("triste").data, ("confuso").data, ("confusa").data, ("difícil").data, ("não consigo").data,
   ("problema").data, ("assustado").data, ("assustada").data, ("medo").data,
   ("sozinho").data, ("sozinha").data]

/-- `needs_support` (ai_mediation.py 161-188): support keyword in the lowered
text, or a question/exclamation mark anywhere in the raw text. -/
def needs_support (text : List Char) : Bool :=
  support_keywords.any (fun kw => containsSeq kw (pyLower text))
  || text.contains '?' || text.contains '!'

/-! Prompt assembly.  `prompt_templates.json` is not part of the repository, so
the fallback templates hardcoded in `LLMIntegration.__init__` are in effect. -/

def group_mediation_template : List Char :=
  ("Você é um mediador de IA para um grupo de pessoas autistas. Seu objetivo é facilitar a conversa de forma respeitosa e inclusiva.").data

def individual_support_template : List Char :=
  ("Você é um assistente de IA para pessoas autistas. Seu objetivo é oferecer suporte emocional e ajudar com estratégias de regulação.").data

/-- First-occurrence deduplication; models iterating a Python `set` built from
a list, or an accumulating `ats_notified` set. -/
def firstOccur (seen : List Int) : List Int → List Int
  | [] => []
  | a :: as => if a ∈ seen then firstOccur seen as else a :: firstOccur (a :: seen) as

/-- Participants section of the group prompt (llm_integration.py 88-105). -/
def participant_line (u : UserDoc) : List Char :=
  if u.role == ("autista").data then
    ("- ").data ++ u.name ++ (": Pessoa autista. ").data
    ++ (let ints := joinComma u.profile.interests
        if ints.isEmpty then [] else ("Interesses: ").data ++ ints ++ (". ").data)
    ++ (let trg := joinComma u.profile.anxiety_triggers
        if trg.isEmpty then [] else ("Gatilhos: ").data ++ trg ++ (". ").data)
    ++ ("Prefere comunicação ").data ++ u.profile.comm_style ++ (".\n").data
  else if u.role == ("at").data then
    ("- ").data ++ u.name ++ (": Auxiliar Terapêutico (AT).\n").data
  else
    ("- ").data ++ u.name ++ (": Papel desconhecido.\n").data

/-- The distinct participants of the recent messages, resolved in the store
(llm_integration.py 58-63). -/
def participants_of (db : DbState) (recent : List Msg) : List UserDoc :=
  (firstOccur [] (recent.map (fun m => m.user_id))).filterMap (fun i => get_user db i)

/-- Conversation-history section: oldest first, one `name: content` line per
message (llm_integration.py 66-75 and 108-110; the per-message role computed
at line 72 is never used by the prompt). -/
def group_conversation_lines (db : DbState) (recent : List Msg) : List Char :=
  (recent.reverse.map (fun m =>
    let uname := match get_user db m.user_id with
      | some u => u.name
      | none => ("Desconhecido").data
    uname ++ (": ").data ++ m.text ++ nl)).flatten

/-- Instruction block of the group prompt (llm_integration.py 112-131),
modulated by the group's mediator settings. -/
def group_instructions (s : AISettings) : List Char :=
  ("\nInstruções:\n1. Facilite a conversa de forma respeitosa e inclusiva.\n2. Mantenha o foco no tema do grupo quando apropriado.\n3. Ajude a incluir participantes que estão em silêncio.\n4. Ofereça suporte se alguém parecer confuso ou ansioso.\n").data
  ++ (if s.activity_suggestions then ("5. Sugira atividades relacionadas ao tema quando apropriado.\n").data else [])
  ++ (if s.conflict_mediation then ("6. Medeie conflitos ou mal-entendidos de forma construtiva.\n").data else [])
  ++ (if s.intervention_frequency == ("low").data then
        ("\nIntervenha apenas quando necessário, mantendo-se em segundo plano na maior parte do tempo.").data
      else if s.intervention_frequency == ("high").data then
        ("\nIntervenha proativamente para manter a conversa fluindo e garantir que todos participem.").data
      else
        ("\nMantenha um equilíbrio entre intervir quando necessário e permitir que a conversa flua naturalmente.").data)

/-- Full prompt of `mediate_group_conversation` (llm_integration.py 82-131). -/
def group_mediation_prompt (db : DbState) (g : Group) (recent : List Msg) : List Char :=
  group_mediation_template
  ++ ("\n\nGrupo: ").data ++ g.name
  ++ ("\nTema: ").data ++ g.theme
  ++ ("\nDescrição: ").data ++ g.description ++ ("\n\n").data
  ++ ("Participantes:\n").data
  ++ ((participants_of db recent).map participant_line).flatten
  ++ ("\nConversa recente:\n").data
  ++ group_conversation_lines db recent
  ++ group_instructions g.ai_mediator_settings

/-- `LLMIntegration.mediate_group_conversation` (llm_integration.py 39-151):
returns `(new store, reply, alert flag)`.  The alert flag is
`_analyze_for_alert(response, recent_messages)` — computed on the ORACLE
RESPONSE, not on the inbound message (line 137). -/
def mediate_group_conversation (db : DbState) (env : OracleEnv) (gid : Int)
    (recent : List Msg) (current_user_id : Int) : DbState × Option (List Char) × Bool :=
  match get_group db gid with
  | none => (db, none, false)
  | some g =>
    let prompt := group_mediation_prompt db g recent
    let response := call_llm_api env prompt
    let alert_needed := analyze_for_alert response recent
    (store_ai_interaction db, some response, alert_needed)

/-- Role tagging of the private conversation history
(llm_integration.py 174-185): reversed to oldest first; `user` role when the
stored sender is the user, `assistant` otherwise. -/
def tag_conversation (uid : Int) (recent : List Msg) : List (List Char × List Char) :=
  recent.reverse.map (fun m =>
    (if m.user_id == uid then ("user").data else ("assistant").data, m.text))

/-- The conversation context assembled for the private support prompt:
most recent 10 of the user's stored messages, newest first from the store,
then reordered and tagged. -/
def individual_conversation (db : DbState) (uid : Int) : List (List Char × List Char) :=
  tag_conversation uid (get_recent_messages db none (some uid) 10)

def individual_instructions : List Char :=
  ("\nInstruções:\n1. Ofereça suporte emocional e ajude com estratégias de regulação.\n2. Adapte sua comunicação ao estilo preferido do usuário.\n3. Evite tópicos que possam ser gatilhos de ansiedade.\n4. Conecte-se com os interesses do usuário quando apropriado.\n5. Seja claro, paciente e respeitoso.\n").data

/-- Full prompt of `provide_individual_support` (llm_integration.py 188-221). -/
def individual_prompt (u : UserDoc) (conversation : List (List Char × List Char)) : List Char :=
  individual_support_template
  ++ ("\n\nUsuário: ").data ++ u.name ++ nl
  ++ ("Idade: ").data
  ++ (match u.profile.age with
      | some a => intText a
      | none => ("Não informada").data) ++ nl
  ++ ("Gênero: ").data
  ++ (match u.profile.gender with
      | some g => g
      | none => ("Não informado").data) ++ nl
  ++ (let ints := joinComma u.profile.interests
      if ints.isEmpty then [] else ("Interesses: ").data ++ ints ++ nl)
  ++ (let trg := joinComma u.profile.anxiety_triggers
      if trg.isEmpty then [] else ("Gatilhos de ansiedade: ").data ++ trg ++ nl)
  ++ ("Preferência de comunicação: ").data ++ u.profile.comm_style ++ nl
  ++ ("\nConversa recente:\n").data
  ++ (conversation.map (fun rc =>
        (if rc.1 == ("user").data then ("Usuário").data else ("Assistente").data)
        ++ (": ").data ++ rc.2 ++ nl)).flatten
  ++ individual_instructions

/-- `LLMIntegration.provide_individual_support` (llm_integration.py 153-241):
returns `(new store, reply, alert flag)`.  The alert flag is
`_analyze_for_alert(message_text, [])` — the ORIGINAL inbound message
(line 227). -/
def provide_individual_support (db : DbState) (env : OracleEnv) (uid : Int)
    (message_text : List Char) : DbState × Option (List Char) × Bool :=
  match get_user db uid with
  | none => (db, none, false)
  | some u =>
    if u.role == ("autista").data then
      let prompt := individual_prompt u (individual_conversation db uid)
      let response := call_llm_api env prompt
      let alert_needed := analyze_for_alert message_text []
      (store_ai_interaction db, some response, alert_needed)
    else (db, none, false)

/-! ### Message handlers (ai_mediation.py) and their global state (main.py) -/

/-- The module-level mutable state of main.py: the store handle plus the
`group_message_timestamps` and `private_chat_sessions` dictionaries. -/
structure World where
  db : DbState
  group_message_timestamps : List (Int × Int)
  private_chat_sessions : List (Int × Int)
deriving DecidableEq

/-- Dictionary read: value of the most recent binding of the key. -/
def lookupTs (l : List (Int × Int)) (k : Int) : Option Int :=
  (l.find? (fun p => p.1 == k)).map (fun p => p.2)

def minutes5 : Int := 5 * 60

/-- `should_ai_intervene` (ai_mediation.py 140-159): intervene when no
last-intervention timestamp exists for the group, or strictly more than
5 minutes have elapsed since it. -/
def should_ai_intervene (group_id : Int) (ts : List (Int × Int)) (now : Int) : Bool :=
  match lookupTs ts group_id with
  | none => true
  | some last => decide (minutes5 < now - last)

/-- Observable outbound actions of one handler invocation. -/
inductive Effect where
  | store (user_id : Int) (group_id : Option Int) (text : List Char)
  | mediatorReply (chat_id : Int) (text : List Char)
  | supportReply (user_id : Int) (text : List Char)
  | alertFacilitator (chat_id : Int) (text : List Char)
deriving DecidableEq

def mediator_tag : List Char := ("🤖 *Mediador IA*: ").data

def assistant_tag : List Char := ("🤖 *Assistente IA*: ").data

def group_alert_text (g : Group) : List Char :=
  ("⚠️ *ALERTA*: Possível situação que requer atenção no grupo ").data ++ g.name
  ++ (". Por favor, verifique a conversa recente e intervenha se necessário.").data

def private_alert_text (u : UserDoc) : List Char :=
  ("⚠️ *ALERTA*: ").data ++ u.name
  ++ (" pode precisar de suporte profissional em uma conversa privada com o assistente IA. Por favor, entre em contato com o usuário quando possível.").data

/-- `handle_group_message` (ai_mediation.py 10-73).  The message is stored
first; mediation then requires a group chat, a known group with the mediator
flag, an open throttle window and a truthy (non-empty) oracle reply; on a sent
reply the throttle timestamp is set to now; an alert goes to the group creator
when the alert flag fired and `created_by` is truthy. -/
def handle_group_message (w : World) (now user_id chat_id : Int)
    (chat_type text : List Char) (env : OracleEnv) : World × List Effect :=
  let db1 := store_message w.db user_id (some chat_id) text now
  let w1 := { w with db := db1 }
  let base := [Effect.store user_id (some chat_id) text]
  if chat_type == ("group").data || chat_type == ("supergroup").data then
    match get_group db1 chat_id with
    | some g =>
      if g.ai_mediator_enabled then
        if should_ai_intervene chat_id w.group_message_timestamps now then
          let recent := get_recent_messages db1 (some chat_id) none 10
          let r := mediate_group_conversation db1 env chat_id recent user_id
          match r.2.1 with
          | some ai_response =>
            if ai_response.isEmpty then ({ w1 with db := r.1 }, base)
            else
              let ts2 := (chat_id, now) :: w.group_message_timestamps
              let w2 := { w1 with db := r.1, group_message_timestamps := ts2 }
              let effs := base ++ [Effect.mediatorReply chat_id (mediator_tag ++ ai_response)]
              if r.2.2 then
                if g.created_by != 0 then
                  (w2, effs ++ [Effect.alertFacilitator g.created_by (group_alert_text g)])
                else (w2, effs)
              else (w2, effs)
          | none => ({ w1 with db := r.1 }, base)
        else (w1, base)
      else (w1, base)
    | none => (w1, base)
  else (w1, base)

/-- The alert fan-out loop of `handle_private_message` (ai_mediation.py
119-138): walk the sender's groups, notify each truthy creator not yet in
`ats_notified`, accumulating the set. -/
def notify_ats (db : DbState) (u : UserDoc) (ats_notified : List Int) :
    List Int → List Effect
  | [] => []
  | gid :: rest =>
    match get_group db gid with
    | some g =>
      if g.created_by != 0 && !(ats_notified.contains g.created_by) then
        Effect.alertFacilitator g.created_by (private_alert_text u)
          :: notify_ats db u (g.created_by :: ats_notified) rest
      else notify_ats db u ats_notified rest
    | none => notify_ats db u ats_notified rest

/-- `handle_private_message` (ai_mediation.py 75-138).  The message is stored
first; support requires a registered autistic sender and a non-command text
that is in an open session or matches the support heuristic; on a truthy reply
the session opens if not yet open, and on the alert flag the creators of the
sender's groups are each notified once. -/
def handle_private_message (w : World) (now user_id : Int) (text : List Char)
    (env : OracleEnv) : World × List Effect :=
  let db1 := store_message w.db user_id none text now
  let w1 := { w with db := db1 }
  let base := [Effect.store user_id none text]
  match get_user db1 user_id with
  | some u =>
    if u.role == ("autista").data then
      let is_support_session := (lookupTs w.private_chat_sessions user_id).isSome
      if !(startsWithSlash text) && (is_support_session || needs_support text) then
        let r := provide_individual_support db1 env user_id text
        match r.2.1 with
        | some ai_response =>
          if ai_response.isEmpty then ({ w1 with db := r.1 }, base)
          else
            let sess2 :=
              if is_support_session then w.private_chat_sessions
              else (user_id, now) :: w.private_chat_sessions
            let w2 := { w1 with db := r.1, private_chat_sessions := sess2 }
            let effs := base ++ [Effect.supportReply user_id (assistant_tag ++ ai_response)]
            if r.2.2 then (w2, effs ++ notify_ats r.1 u [] u.groups)
            else (w2, effs)
        | none => ({ w1 with db := r.1 }, base)
      else (w1, base)
    else (w1, base)
  | none => (w1, base)

/-! ### Conversation-flow handlers (user_profile.py, group_management.py,
activity_management.py) and their registration (main.py) -/

/-- `ConversationHandler.END`. -/
def convEnd : Int := -1

def reply_age_nan : List Char := ("Por favor, digite apenas números para sua idade.").data

def reply_age_range : List Char := ("Por favor, digite uma idade válida entre 5 e 100 anos.").data

def reply_gender_q : List Char := ("Obrigado! Qual é o seu gênero?").data

/-- `process_profile_age` (user_profile.py 9-48): returns the next
conversation state, the accepted age if any, and the outbound reply. -/
def process_profile_age (text : List Char) : Int × Option Int × List Char :=
  match pyInt text with
  | none => (10, none, reply_age_nan)
  | some age =>
    if age < 5 || 100 < age then (10, none, reply_age_range)
    else (11, some age, reply_gender_q)

structure GroupCreationData where
  group_name : List Char
  group_theme : List Char
  group_desc : List Char
deriving DecidableEq

def reply_max_nan : List Char :=
  ("Por favor, digite apenas números. Qual será o número máximo de participantes?").data

def reply_max_range : List Char :=
  ("Por favor, escolha um número entre 2 e 50. Qual será o número máximo de participantes?").data

def reply_group_created (ud : GroupCreationData) : List Char :=
  ("✅ Grupo ").data ++ ud.group_name
  ++ (" criado com sucesso! Você gostaria de ativar o mediador de IA para este grupo?").data

/-- `process_group_max` (group_management.py 203-267): validate 2-50, then
create the group keyed by the current epoch second. -/
def process_group_max (db : DbState) (ud : GroupCreationData) (user_id now : Int)
    (text : List Char) : Int × DbState × List Char :=
  match pyInt text with
  | none => (5, db, reply_max_nan)
  | some m =>
    if m < 2 || 50 < m then (5, db, reply_max_range)
    else (convEnd,
      create_group db now ud.group_name ud.group_theme ud.group_desc user_id m,
      reply_group_created ud)

/-- `toggle_ai_mediator` (group_management.py 269-313): parses the
`ai_(on|off)_<gid>` payload, computes `ai_enabled`, but writes only the
default `ai_mediator_settings` dictionary through
`update_group_ai_settings`; the reply nevertheless reports the toggle. -/
def toggle_ai_mediator (db : DbState) (data : List Char) : DbState × List Char :=
  let parts := splitOnChar '_' data
  let ai_status := parts.getD 1 []
  let gid := (pyInt (parts.getD 2 [])).getD 0
  let ai_enabled := ai_status == ("on").data
  let ai_settings : AISettings := ⟨("medium").data, true, true, true⟩
  let db2 := update_group_ai_settings db gid ai_settings
  let gname := match get_group db2 gid with
    | some g => g.name
    | none => ("Grupo").data
  let status_text := if ai_enabled then ("ativado").data else ("desativado").data
  (db2, ("Mediador de IA ").data ++ status_text ++ (" para o grupo ").data ++ gname ++ (".").data)

structure ActivityCreationData where
  at_groups : List Group
  activity_group_id : Int
  activity_group_name : List Char
  activity_type : List Char
  activity_type_name : List Char
  activity_title : List Char
  activity_desc : List Char
deriving DecidableEq

/-- `process_activity_group` (activity_management.py 118-153): record the
chosen group and move to state 7. -/
def process_activity_group (ud : ActivityCreationData) (data : List Char) :
    Int × ActivityCreationData :=
  let gid := (pyInt ((splitOnChar '_' data).getD 1 [])).getD 0
  let gname := match ud.at_groups.find? (fun g => g.group_id == gid) with
    | some g => g.name
    | none => ("Grupo").data
  (7, { ud with activity_group_id := gid, activity_group_name := gname })

def type_name_of (t : List Char) : List Char :=
  if t == ("discussao").data then ("Discussão Temática").data
  else if t == ("projeto").data then ("Projeto Colaborativo").data
  else if t == ("jogo").data then ("Jogo Social").data
  else if t == ("compartilhamento").data then ("Compartilhamento de Interesses").data
  else t

/-- `process_activity_type` (activity_management.py 155-187): record the
chosen type and move to state 8. -/
def process_activity_type (ud : ActivityCreationData) (data : List Char) :
    Int × ActivityCreationData :=
  let t := (splitOnChar '_' data).getD 1 []
  (8, { ud with activity_type := t, activity_type_name := type_name_of t })

/-- `process_activity_title` (activity_management.py 189-207): record the
title and move to state 9. -/
def process_activity_title (ud : ActivityCreationData) (text : List Char) :
    Int × ActivityCreationData :=
  (9, { ud with activity_title := text })

def reply_ask_duration : List Char :=
  ("Descrição registrada. Qual será a duração desta atividade em minutos? (ex: 30, 60)").data

/-- `process_activity_desc` (activity_management.py 209-226): records the
description and asks for the duration — but returns `ConversationHandler.END`
(line 226), not state 9. -/
def process_activity_desc (ud : ActivityCreationData) (text : List Char) :
    Int × ActivityCreationData × List Char :=
  (convEnd, { ud with activity_desc := text }, reply_ask_duration)

def reply_duration_nan : List Char :=
  ("Por favor, digite apenas números para a duração em minutos.").data

def reply_duration_range : List Char :=
  ("Por favor, escolha uma duração entre 5 e 180 minutos.").data

def reply_activity_created (ud : ActivityCreationData) : List Char :=
  ("✅ Atividade ").data ++ ud.activity_title ++ (" criada com sucesso para o grupo ").data
  ++ ud.activity_group_name ++ ("!").data

/-- `process_activity_duration` (activity_management.py 228-289): validate
5-180, then insert the activity for the chosen group. -/
def process_activity_duration (db : DbState) (ud : ActivityCreationData) (user_id : Int)
    (text : List Char) : Int × DbState × List Char :=
  match pyInt text with
  | none => (9, db, reply_duration_nan)
  | some d =>
    if d < 5 || 180 < d then (9, db, reply_duration_range)
    else (convEnd,
      create_activity db ud.activity_group_id ud.activity_type ud.activity_title
        ud.activity_desc user_id d,
      reply_activity_created ud)

/-- One inbound event while the activity-creation conversation is open. -/
inductive ConvInput where
  | cb (data : List Char)
  | msg (text : List Char)
deriving DecidableEq

/-- The `activity_creation_handler` state table of main.py (lines 324-333):
state 6 → `process_activity_group` on a `group_` callback, state 7 →
`process_activity_type` on a `type_` callback, state 8 →
`process_activity_title` on non-command text, state 9 →
`process_activity_desc` on non-command text.  `process_activity_duration` is
registered in NO state.  A non-matching event leaves the state unchanged. -/
def activity_conv_step (db : DbState) (st : Int) (ud : ActivityCreationData)
    (user_id : Int) (inp : ConvInput) : Int × DbState × ActivityCreationData :=
  if st == 6 then
    match inp with
    | ConvInput.cb d =>
      if firstMatches (("group_").data) d then
        let r := process_activity_group ud d
        (r.1, db, r.2)
      else (st, db, ud)
    | ConvInput.msg _ => (st, db, ud)
  else if st == 7 then
    match inp with
    | ConvInput.cb d =>
      if firstMatches (("type_").data) d then
        let r := process_activity_type ud d
        (r.1, db, r.2)
      else (st, db, ud)
    | ConvInput.msg _ => (st, db, ud)
  else if st == 8 then
    match inp with
    | ConvInput.msg t =>
      if startsWithSlash t then (st, db, ud)
      else
        let r := process_activity_title ud t
        (r.1, db, r.2)
    | ConvInput.cb _ => (st, db, ud)
  else if st == 9 then
    match inp with
    | ConvInput.msg t =>
      if startsWithSlash t then (st, db, ud)
      else
        let r := process_activity_desc ud t
        (r.1, db, r.2.1)
    | ConvInput.cb _ => (st, db, ud)
  else (st, db, ud)

/-- Run the registered activity-creation conversation over a list of inbound
events (once the state is `convEnd` nothing further matches any state). -/
def run_activity_conv (db : DbState) (st : Int) (ud : ActivityCreationData)
    (user_id : Int) : List ConvInput → Int × DbState × ActivityCreationData
  | [] => (st, db, ud)
  | i :: is =>
    let r := activity_conv_step db st ud user_id i
    run_activity_conv r.2.1 r.1 r.2.2 user_id is

/-! ### Concrete fixtures used by witnesses and counterexamples -/

def sampleProfile : Profile := ⟨none, none, [], [], ("direta").data⟩

def gSample : Group :=
  ⟨100, ("G").data, ("T").data, ("D").data, 7, [7], 10, true, default_ai_settings⟩

def uSample : UserDoc := ⟨2, ("Ana").data, ("autista").data, [100], sampleProfile⟩

def atSample : UserDoc := ⟨7, ("Rui").data, ("at").data, [100], sampleProfile⟩

def dbSample : DbState := ⟨[uSample, atSample], [gSample], [], [], 0⟩

def wSample : World := ⟨dbSample, [], []⟩

def envFail : OracleEnv := ⟨none, ApiResult.raised⟩

def envOk : OracleEnv := ⟨some (("k").data), ApiResult.reply 200 (("ok").data)⟩

def envEmpty : OracleEnv := ⟨some (("k").data), ApiResult.reply 200 []⟩

example : pyInt (("60").data) = some 60 := by decide
example : pyInt ((" -7 ").data) = some (-7) := by decide
example : pyInt (("6a").data) = none := by decide
example : splitOnChar '_' (("ai_off_100").data) =
    [("ai").data, ("off").data, ("100").data] := by decide
example : analyze_for_alert (("Socorro").data) [] = true := by decide
example : needs_support (("socorro").data) = false := by decide
example : needs_support (("socorro!").data) = true := by decide
example : should_ai_intervene 1 [(1, 10)] 310 = false := by decide
example : should_ai_intervene 1 [(1, 10)] 311 = true := by decide
example : call_llm_api envFail [] = erro_api_key := by decide

def actUd0 : ActivityCreationData :=
  ⟨[gSample], 0, ("Grupo").data, [], [], [], []⟩

def actInputs : List ConvInput :=
  [ConvInput.cb (("group_100").data), ConvInput.cb (("type_discussao").data),
   ConvInput.msg (("Titulo").data), ConvInput.msg (("Descricao").data),
   ConvInput.msg (("60").data)]

example : (run_activity_conv dbSample 6 actUd0 7 actInputs).1 = convEnd := by decide
example : (run_activity_conv dbSample 6 actUd0 7 actInputs).2.1.activities = [] := by decide
example : (run_activity_conv dbSample 6 actUd0 7 (actInputs.take 4)).1 = convEnd := by decide
example :
    (process_activity_duration (run_activity_conv dbSample 6 actUd0 7 (actInputs.take 4)).2.1
      (run_activity_conv dbSample 6 actUd0 7 (actInputs.take 4)).2.2 7
      (("60").data)).2.1.activities.length = 1 := by decide

example :
    ((get_group (toggle_ai_mediator dbSample (("ai_off_100").data)).1 100).map
      (fun g => g.ai_mediator_enabled)) = some true := by decide

example :
    (handle_group_message wSample 10 2 100 (("group").data) (("oi").data) envEmpty).2 =
      [Effect.store 2 (some 100) (("oi").data)] := by decide

example :
    (handle_private_message wSample 10 2 (("socorro").data) envOk).2 =
      [Effect.store 2 none (("socorro").data)] := by decide

example :
    (mediate_group_conversation dbSample envFail 100 [⟨2, some 100, ("socorro").data, 5⟩] 2).2.2
      = false := by decide

/-- Store created by `create_group` alone, used to examine the toggle. -/
def dbToggle : DbState :=
  create_group ⟨[atSample], [], [], [], 0⟩ 100 (("G").data) (("T").data) (("D").data) 7 10

/-! ### Helper lemmas -/

lemma firstMatches_iff (p t : List Char) : firstMatches p t = true ↔ ∃ r, t = p ++ r := by
  induction p generalizing t with
  | nil =>
    simp [firstMatches]
  | cons a ps ih =>
    cases t with
    | nil => simp [firstMatches]
    | cons b ts =>
      simp only [firstMatches, Bool.and_eq_true, beq_iff_eq, ih, List.cons_append,
        List.cons.injEq]
      constructor
      · rintro ⟨h1, r, h2⟩
        exact ⟨r, h1.symm, h2⟩
      · rintro ⟨r, h1, h2⟩
        exact ⟨h1.symm, r, h2⟩

lemma containsSeq_iff (p t : List Char) :
    containsSeq p t = true ↔ ∃ x y, t = x ++ p ++ y := by
  induction t with
  | nil =>
    simp only [containsSeq, firstMatches_iff]
    constructor
    · rintro ⟨r, h⟩
      exact ⟨[], r, by simpa using h⟩
    · rintro ⟨x, y, h⟩
      refine ⟨y, ?_⟩
      rcases List.append_eq_nil.mp h.symm with ⟨h1, h2⟩
      rcases List.append_eq_nil.mp h1 with ⟨h3, h4⟩
      simp [h3, h4, h2]
  | cons c ts ih =>
    simp only [containsSeq, Bool.or_eq_true, firstMatches_iff, ih]
    constructor
    · rintro (⟨r, h⟩ | ⟨x, y, h⟩)
      · exact ⟨[], r, by simpa using h⟩
      · exact ⟨c :: x, y, by simp [h]⟩
    · rintro ⟨x, y, h⟩
      cases x with
      | nil => exact Or.inl ⟨y, by simpa using h⟩
      | cons d xs =>
        right
        rcases List.cons.injEq .. ▸ h with ⟨h1, h2⟩
        exact ⟨xs, y, by simpa using h2⟩

/-! ### Claim theorems -/

/-- Claim C1 (code bug): in the activity-creation conversation as registered
in main.py, the full sequence of valid inputs — group selection, activity
type, title, description, then the well-formed duration "60" — terminates the
conversation without ever storing an activity: the state is already
`ConversationHandler.END` after the description step (whose reply is the
duration question), the duration message is never routed to any state
handler, and the stored-activity list stays empty; yet the unregistered
`process_activity_duration`, applied by hand to the collected data, would
have created exactly the claimed activity. -/
theorem activity_flow_ends_without_storing_activity :
    (run_activity_conv dbSample 6 actUd0 7 actInputs).1 = convEnd ∧
    (run_activity_conv dbSample 6 actUd0 7 actInputs).2.1.activities = [] ∧
    (run_activity_conv dbSample 6 actUd0 7 (actInputs.take 4)).1 = convEnd ∧
    (process_activity_desc (run_activity_conv dbSample 6 actUd0 7 (actInputs.take 3)).2.2
      (("Descricao").data)).2.2 = reply_ask_duration ∧
    (process_activity_duration (run_activity_conv dbSample 6 actUd0 7 (actInputs.take 4)).2.1
      (run_activity_conv dbSample 6 actUd0 7 (actInputs.take 4)).2.2 7
      (("60").data)).2.1.activities.length = 1 := by
  decide

/-- Claim C2 (code bug): after creating a group (mediator enabled by
default), resolving the follow-up button with `ai_off_<gid>` leaves the
stored `ai_mediator_enabled` flag `true` even though the reply text asserts
the mediator was disabled; indeed `toggle_ai_mediator` never changes any
group's `ai_mediator_enabled` field in any store. -/
theorem toggle_off_leaves_mediator_enabled :
    ((get_group dbToggle 100).map (fun g => g.ai_mediator_enabled)) = some true ∧
    (toggle_ai_mediator dbToggle (("ai_off_100").data)).2 =
      ("Mediador de IA desativado para o grupo G.").data ∧
    ((get_group (toggle_ai_mediator dbToggle (("ai_off_100").data)).1 100).map
      (fun g => g.ai_mediator_enabled)) = some true ∧
    (∀ db data, ((toggle_ai_mediator db data).1).groups.map (fun g => g.ai_mediator_enabled) =
      db.groups.map (fun g => g.ai_mediator_enabled)) := by
  refine ⟨by decide, by decide, by decide, ?_⟩
  intro db data
  show (db.groups.map _).map _ = _
  induction db.groups with
  | nil => rfl
  | cons a as ih =>
    simp only [List.map_cons, ih, List.cons.injEq, and_true]
    split <;> rfl

/-- Claim C9 (confirmed): the alert policy is a pure function of the message
text alone — the `context_messages` argument never affects the result — and
it returns `true` exactly when the lowercased text has one of the fixed
alert-vocabulary keywords as a contiguous substring. -/
theorem alert_policy_pure (text : List Char) (ctx1 ctx2 : List Msg) :
    analyze_for_alert text ctx1 = analyze_for_alert text ctx2 ∧
    (analyze_for_alert text ctx1 = true ↔
      ∃ kw, kw ∈ alert_keywords ∧ ∃ x y, pyLower text = x ++ kw ++ y) := by
  refine ⟨rfl, ?_⟩
  simp [analyze_for_alert, List.any_eq_true, containsSeq_iff]

/-- Reading a group is unaffected by storing a message. -/
lemma get_group_store (db : DbState) (u : Int) (g : Option Int) (t : List Char) (n : Int)
    (gid : Int) : get_group (store_message db u g t n) gid = get_group db gid := rfl

/-- Reading a user is unaffected by storing a message. -/
lemma get_user_store (db : DbState) (u : Int) (g : Option Int) (t : List Char) (n : Int)
    (uid : Int) : get_user (store_message db u g t n) uid = get_user db uid := rfl

/-- An oracle environment in one of the three failure modes. -/
def oracleFails (env : OracleEnv) : Prop :=
  env.api_key = none ∨ env.result = ApiResult.raised ∨
    ∃ s c, env.result = ApiResult.reply s c ∧ s ≠ 200

lemma call_llm_api_fail (env : OracleEnv) (prompt : List Char) (h : oracleFails env) :
    (call_llm_api env prompt = erro_api_key ∨ call_llm_api env prompt = apology_request ∨
      call_llm_api env prompt = apology_tech) ∧ call_llm_api env prompt ≠ [] := by
  have h1 : erro_api_key ≠ [] := by decide
  have h2 : apology_request ≠ [] := by decide
  have h3 : apology_tech ≠ [] := by decide
  obtain ⟨key, result⟩ := env
  rcases h with h | h | ⟨s, c, h, hs⟩ <;> simp only at h
  · subst h
    exact ⟨Or.inl rfl, h1⟩
  · subst h
    cases key with
    | none => exact ⟨Or.inl rfl, h1⟩
    | some k => exact ⟨Or.inr (Or.inl rfl), h2⟩
  · subst h
    cases key with
    | none => exact ⟨Or.inl rfl, h1⟩
    | some k =>
      have hbeq : (s == 200) = false := by simpa using hs
      have hcall : call_llm_api ⟨some k, ApiResult.reply s c⟩ prompt = apology_tech := by
        simp [call_llm_api, hbeq]
      exact ⟨Or.inr (Or.inr hcall), hcall ▸ h3⟩

/-- Claim C10 (corrected): every failure mode of the oracle wrapper — missing
credential, raised exception, non-200 status — yields one of three fixed,
non-empty apology strings; a 200 response yields the extracted completion
verbatim (which may be empty, so the claim's "always non-empty" fails there,
see the counterexample); consequently, whenever the oracle fails and every
mediation gate is open, the group handler does send a mediator reply. -/
theorem oracle_wrapper_totality :
    (∀ env prompt, oracleFails env →
      (call_llm_api env prompt = erro_api_key ∨ call_llm_api env prompt = apology_request ∨
        call_llm_api env prompt = apology_tech) ∧ call_llm_api env prompt ≠ []) ∧
    (∀ key c prompt, call_llm_api ⟨some key, ApiResult.reply 200 c⟩ prompt = c) ∧
    (∀ w now uid chat text env g, oracleFails env →
      get_group w.db chat = some g → g.ai_mediator_enabled = true →
      should_ai_intervene chat w.group_message_timestamps now = true →
      ∃ s, Effect.mediatorReply chat s ∈
        (handle_group_message w now uid chat (("group").data) text env).2) := by
  refine ⟨call_llm_api_fail, fun key c prompt => rfl, ?_⟩
  intro w now uid chat text env g hfail hg hen hint
  have hg1 : get_group (store_message w.db uid (some chat) text now) chat = some g := by
    rw [get_group_store, hg]
  have hne := (call_llm_api_fail env
    (group_mediation_prompt (store_message w.db uid (some chat) text now) g
      (get_recent_messages (store_message w.db uid (some chat) text now) (some chat) none 10))
    hfail).2
  have hct : ((("group").data == ("group").data) ||
      (("group").data == ("supergroup").data)) = true := by decide
  have hie : (call_llm_api env
      (group_mediation_prompt (store_message w.db uid (some chat) text now) g
        (get_recent_messages (store_message w.db uid (some chat) text now) (some chat) none 10))).isEmpty
      = false := by
    revert hne
    cases call_llm_api env
      (group_mediation_prompt (store_message w.db uid (some chat) text now) g
        (get_recent_messages (store_message w.db uid (some chat) text now) (some chat) none 10)) with
    | nil => intro hne; exact absurd rfl hne
    | cons a as => intro _; rfl
  simp only [handle_group_message, mediate_group_conversation, hg1, hen, hint, hct, hie,
    if_true, Bool.false_eq_true, if_false]
  refine ⟨mediator_tag ++ call_llm_api env
    (group_mediation_prompt (store_message w.db uid (some chat) text now) g
      (get_recent_messages (store_message w.db uid (some chat) text now) (some chat) none 10)),
    ?_⟩
  split
  · split <;> simp
  · simp

/-- Claim C10, counterexample: with the credential present and a 200 response
whose extracted completion is the empty string, the wrapper returns the empty
string — not a non-empty one — and the group handler, with every mediation
gate open (group exists, mediator enabled, no throttle timestamp), takes the
skip branch of the `if ai_response` guard: no reply is sent. -/
theorem oracle_success_empty_reply :
    call_llm_api envEmpty (("p").data) = [] ∧
    (handle_group_message wSample 10 2 100 (("group").data) (("oi").data) envEmpty).2 =
      [Effect.store 2 (some 100) (("oi").data)] ∧
    ((get_group wSample.db 100).map (fun g => g.ai_mediator_enabled)) = some true ∧
    should_ai_intervene 100 wSample.group_message_timestamps 10 = true := by
  refine ⟨rfl, by decide, by decide, by decide⟩

/-- Claim C10, witness: the failure clauses of `oracle_wrapper_totality`
instantiated at the missing-credential environment with all gates open. -/
theorem oracle_wrapper_totality_witness :
    call_llm_api envFail [] ≠ [] ∧
    (∃ s, Effect.mediatorReply 100 s ∈
      (handle_group_message wSample 10 2 100 (("group").data) (("oi").data) envFail).2) :=
  ⟨(oracle_wrapper_totality.1 envFail [] (Or.inl rfl)).2,
   oracle_wrapper_totality.2.2 wSample 10 2 100 (("oi").data) envFail gSample
     (Or.inl rfl) (by decide) rfl (by decide)⟩

lemma find_map_replace (l : List Group) (gid : Int) (g : Group)
    (hg : (g.group_id == gid) = true)
    (h : l.any (fun x => x.group_id == gid) = true) :
    (l.map (fun x => if x.group_id == gid then g else x)).find?
      (fun x => x.group_id == gid) = some g := by
  induction l with
  | nil => simp at h
  | cons a as ih =>
    cases ha : (a.group_id == gid) with
    | true => simp [List.find?, ha, hg]
    | false =>
      simp only [List.any_cons, ha, Bool.false_or] at h
      simpa [List.find?, ha] using ih h

lemma find_append_new (l : List Group) (gid : Int) (g : Group)
    (hg : (g.group_id == gid) = true)
    (h : l.any (fun x => x.group_id == gid) = false) :
    (l ++ [g]).find? (fun x => x.group_id == gid) = some g := by
  induction l with
  | nil => simp [List.find?, hg]
  | cons a as ih =>
    simp only [List.any_cons, Bool.or_eq_false_iff] at h
    obtain ⟨ha, h2⟩ := h
    simpa [List.find?, ha] using ih h2

/-- The upsert of `create_group` makes the fresh group document the one read
back for its id. -/
lemma get_group_create (db : DbState) (gid : Int) (nm th de : List Char) (c m : Int) :
    get_group (create_group db gid nm th de c m) gid =
      some ⟨gid, nm, th, de, c, [c], m, true, default_ai_settings⟩ := by
  unfold get_group create_group
  by_cases h : db.groups.any (fun x => x.group_id == gid) = true
  · simp only [h, if_true]
    exact find_map_replace _ _ _ (by simp) h
  · rw [Bool.not_eq_true] at h
    simp only [h, Bool.false_eq_true, if_false]
    exact find_append_new _ _ _ (by simp) h

/-- Claim C4 (confirmed): each bounded-integer handler — age (5-100), max
members (2-50), duration (5-180) — rejects non-numeric input and out-of-range
values by re-issuing its own state with the corresponding re-prompt and
leaving the store untouched, while the boundary values are accepted: the
handler leaves the re-prompt state and commits the value. -/
theorem bounded_integer_handlers :
    (∀ t, pyInt t = none → process_profile_age t = (10, none, reply_age_nan)) ∧
    (∀ t n, pyInt t = some n → (n < 5 ∨ 100 < n) →
      process_profile_age t = (10, none, reply_age_range)) ∧
    process_profile_age (("5").data) = (11, some 5, reply_gender_q) ∧
    process_profile_age (("100").data) = (11, some 100, reply_gender_q) ∧
    (∀ db ud uid now t, pyInt t = none →
      process_group_max db ud uid now t = (5, db, reply_max_nan)) ∧
    (∀ db ud uid now t n, pyInt t = some n → (n < 2 ∨ 50 < n) →
      process_group_max db ud uid now t = (5, db, reply_max_range)) ∧
    (∀ db ud uid now, (process_group_max db ud uid now (("2").data)).1 = convEnd ∧
      (get_group (process_group_max db ud uid now (("2").data)).2.1 now).map
        (fun g => g.max_members) = some 2) ∧
    (∀ db ud uid now, (process_group_max db ud uid now (("50").data)).1 = convEnd ∧
      (get_group (process_group_max db ud uid now (("50").data)).2.1 now).map
        (fun g => g.max_members) = some 50) ∧
    (∀ db ud uid t, pyInt t = none →
      process_activity_duration db ud uid t = (9, db, reply_duration_nan)) ∧
    (∀ db ud uid t n, pyInt t = some n → (n < 5 ∨ 180 < n) →
      process_activity_duration db ud uid t = (9, db, reply_duration_range)) ∧
    (∀ db ud uid, (process_activity_duration db ud uid (("5").data)).1 = convEnd ∧
      (process_activity_duration db ud uid (("5").data)).2.1.activities =
        db.activities ++ [⟨ud.activity_group_id, ud.activity_type, ud.activity_title,
          ud.activity_desc, uid, 5, ("scheduled").data, true⟩]) ∧
    (∀ db ud uid, (process_activity_duration db ud uid (("180").data)).1 = convEnd ∧
      (process_activity_duration db ud uid (("180").data)).2.1.activities =
        db.activities ++ [⟨ud.activity_group_id, ud.activity_type, ud.activity_title,
          ud.activity_desc, uid, 180, ("scheduled").data, true⟩]) := by
  have hp2 : pyInt (("2").data) = some 2 := by decide
  have hp50 : pyInt (("50").data) = some 50 := by decide
  have hp5 : pyInt (("5").data) = some 5 := by decide
  have hp180 : pyInt (("180").data) = some 180 := by decide
  refine ⟨?_, ?_, by decide, by decide, ?_, ?_, ?_, ?_, ?_, ?_, ?_, ?_⟩
  · intro t h
    simp [process_profile_age, h]
  · intro t n h hn
    simp only [process_profile_age, h]
    rcases hn with hn | hn <;> simp [hn]
  · intro db ud uid now t h
    simp [process_group_max, h]
  · intro db ud uid now t n h hn
    simp only [process_group_max, h]
    rcases hn with hn | hn <;> simp [hn]
  · intro db ud uid now
    constructor
    · simp [process_group_max, hp2]
    · simp only [process_group_max, hp2]
      norm_num
      rw [get_group_create]
      exact ⟨_, rfl, rfl⟩
  · intro db ud uid now
    constructor
    · simp [process_group_max, hp50]
    · simp only [process_group_max, hp50]
      norm_num
      rw [get_group_create]
      exact ⟨_, rfl, rfl⟩
  · intro db ud uid t h
    simp [process_activity_duration, h]
  · intro db ud uid t n h hn
    simp only [process_activity_duration, h]
    rcases hn with hn | hn <;> simp [hn]
  · intro db ud uid
    refine ⟨by simp [process_activity_duration, hp5], ?_⟩
    simp [process_activity_duration, hp5, create_activity]
  · intro db ud uid
    refine ⟨by simp [process_activity_duration, hp180], ?_⟩
    simp [process_activity_duration, hp180, create_activity]

def gcdSample : GroupCreationData := ⟨("N").data, ("T").data, ("D").data⟩

/-- Claim C4, witness: the rejection and acceptance clauses of
`bounded_integer_handlers` instantiated at concrete inputs. -/
theorem bounded_integer_handlers_witness :
    process_profile_age (("abc").data) = (10, none, reply_age_nan) ∧
    process_profile_age (("4").data) = (10, none, reply_age_range) ∧
    process_profile_age (("101").data) = (10, none, reply_age_range) ∧
    process_group_max dbSample gcdSample 7 123 (("one").data) = (5, dbSample, reply_max_nan) ∧
    process_group_max dbSample gcdSample 7 123 (("51").data) = (5, dbSample, reply_max_range) ∧
    (process_group_max dbSample gcdSample 7 123 (("2").data)).1 = convEnd ∧
    process_activity_duration dbSample actUd0 7 (("x").data) = (9, dbSample, reply_duration_nan) ∧
    process_activity_duration dbSample actUd0 7 (("181").data) =
      (9, dbSample, reply_duration_range) ∧
    (process_activity_duration dbSample actUd0 7 (("180").data)).1 = convEnd :=
  ⟨bounded_integer_handlers.1 _ (by decide),
   bounded_integer_handlers.2.1 _ 4 (by decide) (Or.inl (by decide)),
   bounded_integer_handlers.2.1 _ 101 (by decide) (Or.inr (by decide)),
   bounded_integer_handlers.2.2.2.2.1 dbSample gcdSample 7 123 _ (by decide),
   bounded_integer_handlers.2.2.2.2.2.1 dbSample gcdSample 7 123 _ 51 (by decide)
     (Or.inr (by decide)),
   (bounded_integer_handlers.2.2.2.2.2.2.1 dbSample gcdSample 7 123).1,
   bounded_integer_handlers.2.2.2.2.2.2.2.2.1 dbSample actUd0 7 _ (by decide),
   bounded_integer_handlers.2.2.2.2.2.2.2.2.2.1 dbSample actUd0 7 _ 181 (by decide)
     (Or.inr (by decide)),
   (bounded_integer_handlers.2.2.2.2.2.2.2.2.2.2.2 dbSample actUd0 7).1⟩

/-- The LLM mediation path never changes the stored message log. -/
lemma mediate_messages (db : DbState) (env : OracleEnv) (gid : Int) (recent : List Msg)
    (cu : Int) : (mediate_group_conversation db env gid recent cu).1.messages = db.messages := by
  unfold mediate_group_conversation
  split <;> rfl

/-- The LLM support path never changes the stored message log. -/
lemma provide_messages (db : DbState) (env : OracleEnv) (uid : Int) (text : List Char) :
    (provide_individual_support db env uid text).1.messages = db.messages := by
  unfold provide_individual_support
  split
  · rfl
  · split <;> rfl

lemma group_handler_messages (w : World) (now uid chat : Int) (ctype text : List Char)
    (env : OracleEnv) :
    (handle_group_message w now uid chat ctype text env).1.db.messages =
      Msg.mk uid (some chat) text now :: w.db.messages := by
  unfold handle_group_message
  repeat' (first | split | simp [store_message, mediate_messages])

lemma private_handler_messages (w : World) (now uid : Int) (text : List Char)
    (env : OracleEnv) :
    (handle_private_message w now uid text env).1.db.messages =
      Msg.mk uid none text now :: w.db.messages := by
  unfold handle_private_message
  repeat' (first | split | simp [store_message, provide_messages])

lemma group_handler_store_first (w : World) (now uid chat : Int) (ctype text : List Char)
    (env : OracleEnv) :
    (handle_group_message w now uid chat ctype text env).2.head? =
      some (Effect.store uid (some chat) text) := by
  unfold handle_group_message
  repeat' (first | split | simp)

lemma private_handler_store_first (w : World) (now uid : Int) (text : List Char)
    (env : OracleEnv) :
    (handle_private_message w now uid text env).2.head? =
      some (Effect.store uid none text) := by
  unfold handle_private_message
  repeat' (first | split | simp)

/-- Claim C7 (confirmed): both message handlers append the inbound message to
the durable log unconditionally — in every branch of every moderation
decision — and the store is the first effect of the invocation, before any
moderation output. -/
theorem store_first_policy :
    ∀ w now uid chat ctype text env,
      (handle_group_message w now uid chat ctype text env).2.head? =
        some (Effect.store uid (some chat) text) ∧
      (handle_group_message w now uid chat ctype text env).1.db.messages =
        Msg.mk uid (some chat) text now :: w.db.messages ∧
      (handle_private_message w now uid text env).2.head? =
        some (Effect.store uid none text) ∧
      (handle_private_message w now uid text env).1.db.messages =
        Msg.mk uid none text now :: w.db.messages :=
  fun w now uid chat ctype text env =>
    ⟨group_handler_store_first w now uid chat ctype text env,
     group_handler_messages w now uid chat ctype text env,
     private_handler_store_first w now uid text env,
     private_handler_messages w now uid text env⟩

lemma provide_alert_on_input (db : DbState) (env : OracleEnv) (uid : Int) (text : List Char)
    (u : UserDoc) (h1 : get_user db uid = some u) (h2 : u.role = ("autista").data) :
    (provide_individual_support db env uid text).2.2 = analyze_for_alert text [] := by
  unfold provide_individual_support
  rw [h1]
  simp [h2]

lemma mediate_alert_on_response (db : DbState) (env : OracleEnv) (gid : Int)
    (recent : List Msg) (cu : Int) (g : Group) (h : get_group db gid = some g) :
    (mediate_group_conversation db env gid recent cu).2.2 =
      analyze_for_alert (call_llm_api env (group_mediation_prompt db g recent)) recent := by
  unfold mediate_group_conversation
  rw [h]

/-- Claim C3 (corrected): every oracle failure mode is replaced by a fixed
apology inside the call boundary and never escapes; the inbound message is
stored in both paths regardless; the PRIVATE path evaluates the alert policy
on the original inbound text — but the GROUP path evaluates it on the oracle
response (the apology, when the oracle failed), not on the inbound text. -/
theorem oracle_errors_alert_paths :
    (∀ env prompt, oracleFails env →
      (call_llm_api env prompt = erro_api_key ∨ call_llm_api env prompt = apology_request ∨
        call_llm_api env prompt = apology_tech) ∧ call_llm_api env prompt ≠ []) ∧
    (∀ w now uid chat ctype text env,
      (handle_group_message w now uid chat ctype text env).1.db.messages =
        Msg.mk uid (some chat) text now :: w.db.messages) ∧
    (∀ w now uid text env,
      (handle_private_message w now uid text env).1.db.messages =
        Msg.mk uid none text now :: w.db.messages) ∧
    (∀ db env uid text u, get_user db uid = some u → u.role = ("autista").data →
      (provide_individual_support db env uid text).2.2 = analyze_for_alert text []) ∧
    (∀ db env gid recent cu g, get_group db gid = some g →
      (mediate_group_conversation db env gid recent cu).2.2 =
        analyze_for_alert (call_llm_api env (group_mediation_prompt db g recent)) recent) :=
  ⟨call_llm_api_fail,
   fun w now uid chat ctype text env => group_handler_messages w now uid chat ctype text env,
   fun w now uid text env => private_handler_messages w now uid text env,
   provide_alert_on_input,
   mediate_alert_on_response⟩

/-- Claim C3, counterexample: an inbound group message containing the alert
keyword "socorro" while the oracle credential is missing: the group path
computes the alert flag on the apology reply, yielding `false`, although the
alert policy on the original inbound text yields `true`; the handler sends
the apology as the mediator reply and no facilitator alert. -/
theorem group_alert_skips_original_input :
    analyze_for_alert (("socorro").data) [] = true ∧
    (mediate_group_conversation dbSample envFail 100
      [⟨2, some 100, ("socorro").data, 5⟩] 2).2.2 = false ∧
    (mediate_group_conversation dbSample envFail 100
      [⟨2, some 100, ("socorro").data, 5⟩] 2).2.1 = some erro_api_key ∧
    (handle_group_message wSample 10 2 100 (("group").data) (("socorro").data) envFail).2 =
      [Effect.store 2 (some 100) (("socorro").data),
       Effect.mediatorReply 100 (mediator_tag ++ erro_api_key)] := by
  refine ⟨by decide, by decide, by decide, by decide⟩

/-- Claim C3, witness: the hypothesis-bearing clauses of
`oracle_errors_alert_paths` instantiated at a concrete store, user, group and
failing environment. -/
theorem oracle_errors_alert_paths_witness :
    (call_llm_api envFail [] = erro_api_key ∨ call_llm_api envFail [] = apology_request ∨
      call_llm_api envFail [] = apology_tech) ∧
    (provide_individual_support dbSample envFail 2 (("socorro").data)).2.2 =
      analyze_for_alert (("socorro").data) [] ∧
    (mediate_group_conversation dbSample envFail 100 [] 2).2.2 =
      analyze_for_alert (call_llm_api envFail (group_mediation_prompt dbSample gSample [])) [] :=
  ⟨(oracle_errors_alert_paths.1 envFail [] (Or.inl rfl)).1,
   oracle_errors_alert_paths.2.2.2.1 dbSample envFail 2 (("socorro").data) uSample
     (by decide) rfl,
   oracle_errors_alert_paths.2.2.2.2 dbSample envFail 100 [] 2 gSample (by decide)⟩

lemma get_recent_user_only (db : DbState) (uid : Int) (limit : Nat) :
    ∀ m ∈ get_recent_messages db none (some uid) limit, m.user_id = uid := by
  intro m hm
  unfold get_recent_messages at hm
  have hm2 : m ∈ List.insertionSort newer (db.messages.filter (msg_matches none (some uid))) :=
    List.mem_of_mem_take hm
  have hm3 : m ∈ db.messages.filter (msg_matches none (some uid)) :=
    (List.perm_insertionSort newer _).mem_iff.mp hm2
  have hp := (List.mem_filter.mp hm3).2
  simpa [msg_matches] using hp

lemma get_recent_sorted (db : DbState) (gidQ uidQ : Option Int) (limit : Nat) :
    List.Chain' newer (get_recent_messages db gidQ uidQ limit) := by
  unfold get_recent_messages
  have hs : List.Sorted newer
      (List.insertionSort newer (db.messages.filter (msg_matches gidQ uidQ))) :=
    List.sorted_insertionSort newer _
  exact List.Pairwise.chain' (List.Pairwise.sublist (List.take_sublist _ _) hs)

lemma get_recent_most_recent (db : DbState) (uid : Int) (limit : Nat) :
    ∀ m ∈ db.messages, m.user_id = uid →
      m ∉ get_recent_messages db none (some uid) limit →
      ∀ m2 ∈ get_recent_messages db none (some uid) limit, m.timestamp ≤ m2.timestamp := by
  intro m hm hmu hnot m2 hm2
  have hsel : get_recent_messages db none (some uid) limit =
      (List.insertionSort newer (db.messages.filter (msg_matches none (some uid)))).take limit :=
    rfl
  rw [hsel] at hnot hm2
  have hml : m ∈ List.insertionSort newer (db.messages.filter (msg_matches none (some uid))) :=
    (List.perm_insertionSort newer _).mem_iff.mpr
      (List.mem_filter.mpr ⟨hm, by simp [msg_matches, hmu]⟩)
  have hsort : List.Pairwise newer
      (List.insertionSort newer (db.messages.filter (msg_matches none (some uid)))) :=
    List.sorted_insertionSort newer _
  rw [← List.take_append_drop limit
    (List.insertionSort newer (db.messages.filter (msg_matches none (some uid))))] at hml hsort
  rcases List.mem_append.mp hml with h | h
  · exact absurd h hnot
  · exact (List.pairwise_append.mp hsort).2.2 m2 hm2 m h

/-- Claim C8 (confirmed): the private support context is exactly the sender's
own stored messages — the 10 with the greatest timestamps, fetched
newest-first and reordered oldest-first — each tagged `user` when the stored
sender is the user and `assistant` otherwise, and `provide_individual_support`
feeds exactly this conversation into the prompt it sends to the oracle. -/
theorem individual_context_assembly :
    ∀ db uid,
      (∀ m ∈ get_recent_messages db none (some uid) 10, m.user_id = uid) ∧
      List.Chain' newer (get_recent_messages db none (some uid) 10) ∧
      (∀ m ∈ db.messages, m.user_id = uid →
        m ∉ get_recent_messages db none (some uid) 10 →
        ∀ m2 ∈ get_recent_messages db none (some uid) 10, m.timestamp ≤ m2.timestamp) ∧
      (get_recent_messages db none (some uid) 10).length ≤ 10 ∧
      individual_conversation db uid =
        (get_recent_messages db none (some uid) 10).reverse.map (fun m =>
          (if m.user_id == uid then ("user").data else ("assistant").data, m.text)) ∧
      (∀ env text u, get_user db uid = some u → u.role = ("autista").data →
        provide_individual_support db env uid text =
          (store_ai_interaction db,
            some (call_llm_api env (individual_prompt u (individual_conversation db uid))),
            analyze_for_alert text [])) := by
  intro db uid
  refine ⟨get_recent_user_only db uid 10, get_recent_sorted db none (some uid) 10,
    get_recent_most_recent db uid 10, ?_, rfl, ?_⟩
  · simp [get_recent_messages, List.length_take]
  · intro env text u h1 h2
    unfold provide_individual_support
    rw [h1]
    simp [h2]

/-- A store holding twelve private messages of user 2 (timestamps 0-11). -/
def dbMany : DbState :=
  ⟨[uSample, atSample], [gSample], [],
    (List.range 12).map (fun i => ⟨2, none, ("m").data, (i : Int)⟩), 0⟩

/-- Claim C8, witness: `individual_context_assembly` applied to a store with
twelve stored messages — the message with timestamp 0 falls outside the
10-message window and is older than the selected one with timestamp 11 — and
the support path applied to a registered autistic user. -/
theorem individual_context_assembly_witness :
    (Msg.mk 2 none (("m").data) 0).timestamp ≤ (Msg.mk 2 none (("m").data) 11).timestamp ∧
    provide_individual_support dbMany envFail 2 (("oi").data) =
      (store_ai_interaction dbMany,
        some (call_llm_api envFail (individual_prompt uSample (individual_conversation dbMany 2))),
        analyze_for_alert (("oi").data) []) :=
  ⟨(individual_context_assembly dbMany 2).2.2.1 (Msg.mk 2 none (("m").data) 0)
      (by decide) rfl (by decide) (Msg.mk 2 none (("m").data) 11) (by decide),
   (individual_context_assembly dbMany 2).2.2.2.2.2 envFail (("oi").data) uSample
      (by decide) rfl⟩

/-- The facilitator ids extracted from a list of alert effects. -/
def alert_targets (effs : List Effect) : List Int :=
  effs.filterMap (fun e => match e with
    | Effect.alertFacilitator a _ => some a
    | _ => none)

/-- The (truthy) creators of the existing groups among `gids`, in order, with
multiplicity. -/
def facilitators_of (db : DbState) (gids : List Int) : List Int :=
  gids.filterMap (fun gid => match get_group db gid with
    | some g => if g.created_by != 0 then some g.created_by else none
    | none => none)

lemma notify_ats_spec (db : DbState) (u : UserDoc) :
    ∀ gids seen,
      (alert_targets (notify_ats db u seen gids)).Nodup ∧
      (∀ a, a ∈ alert_targets (notify_ats db u seen gids) ↔
        a ∈ facilitators_of db gids ∧ a ∉ seen) := by
  intro gids
  induction gids with
  | nil =>
    intro seen
    simp [notify_ats, alert_targets, facilitators_of]
  | cons gid rest ih =>
    intro seen
    cases hg : get_group db gid with
    | none =>
      have hf : facilitators_of db (gid :: rest) = facilitators_of db rest := by
        simp [facilitators_of, List.filterMap_cons, hg]
      have hn : notify_ats db u seen (gid :: rest) = notify_ats db u seen rest := by
        simp [notify_ats, hg]
      rw [hf, hn]
      exact ih seen
    | some g =>
      cases hcb : (g.created_by != 0) with
      | false =>
        have hz : g.created_by = 0 := by simpa using hcb
        have hf : facilitators_of db (gid :: rest) = facilitators_of db rest := by
          simp [facilitators_of, List.filterMap_cons, hg, hz]
        have hcond : (g.created_by != 0 && !(seen.contains g.created_by)) = false := by
          rw [hcb]
          simp
        have hn : notify_ats db u seen (gid :: rest) = notify_ats db u seen rest := by
          simp only [notify_ats, hg, hcond]
          simp
        rw [hf, hn]
        exact ih seen
      | true =>
        have hz : g.created_by ≠ 0 := by simpa using hcb
        have hf : facilitators_of db (gid :: rest) =
            g.created_by :: facilitators_of db rest := by
          simp [facilitators_of, List.filterMap_cons, hg, hz]
        rw [hf]
        cases hseen : seen.contains g.created_by with
        | true =>
          have hmem : g.created_by ∈ seen := by
            simpa using hseen
          have hcond : (g.created_by != 0 && !(seen.contains g.created_by)) = false := by
            rw [hseen]
            simp
          have hn : notify_ats db u seen (gid :: rest) = notify_ats db u seen rest := by
            simp only [notify_ats, hg, hcond]
            simp
          rw [hn]
          refine ⟨(ih seen).1, fun a => ?_⟩
          rw [(ih seen).2 a]
          constructor
          · rintro ⟨ha, hb⟩
            exact ⟨List.mem_cons_of_mem _ ha, hb⟩
          · rintro ⟨ha, hb⟩
            rcases List.mem_cons.mp ha with ha | ha
            · exact absurd (ha ▸ hmem) hb
            · exact ⟨ha, hb⟩
        | false =>
          have hmem : g.created_by ∉ seen := by
            simpa using hseen
          have hcond : (g.created_by != 0 && !(seen.contains g.created_by)) = true := by
            rw [hseen, hcb]
            simp
          have hn : notify_ats db u seen (gid :: rest) =
              Effect.alertFacilitator g.created_by (private_alert_text u)
                :: notify_ats db u (g.created_by :: seen) rest := by
            simp only [notify_ats, hg, hcond]
            simp
          rw [hn]
          have htg : alert_targets (Effect.alertFacilitator g.created_by (private_alert_text u)
              :: notify_ats db u (g.created_by :: seen) rest) =
              g.created_by :: alert_targets (notify_ats db u (g.created_by :: seen) rest) := by
            simp [alert_targets, List.filterMap_cons]
          rw [htg]
          obtain ⟨ihn, ihm⟩ := ih (g.created_by :: seen)
          constructor
          · refine List.nodup_cons.mpr ⟨fun hc => ?_, ihn⟩
            have := (ihm g.created_by).mp hc
            exact this.2 (List.mem_cons_self _ _)
          · intro a
            constructor
            · intro ha
              rcases List.mem_cons.mp ha with ha | ha
              · exact ⟨ha ▸ List.mem_cons_self _ _, ha ▸ hmem⟩
              · obtain ⟨h1, h2⟩ := (ihm a).mp ha
                exact ⟨List.mem_cons_of_mem _ h1,
                  fun hc => h2 (List.mem_cons_of_mem _ hc)⟩
            · rintro ⟨ha, hb⟩
              rcases List.mem_cons.mp ha with ha | ha
              · exact ha ▸ List.mem_cons_self _ _
              · by_cases hac : a = g.created_by
                · exact hac ▸ List.mem_cons_self _ _
                · exact List.mem_cons_of_mem _ ((ihm a).mpr
                    ⟨ha, fun hc => (List.mem_cons.mp hc).elim hac hb⟩)

/-- Claim C6 (corrected, amended form): when the support path actually runs
for a registered autistic sender — the text is not a command, the sender is in
an open support session or the support heuristic matches, the oracle reply is
non-empty — and the inbound text satisfies the alert policy, then the alert
fan-out notifies exactly the distinct truthy creators of the existing groups
in the sender's membership list, each exactly once. -/
theorem private_alert_fanout (w : World) (now uid : Int) (text : List Char)
    (env : OracleEnv) (u : UserDoc)
    (h1 : get_user w.db uid = some u) (h2 : u.role = ("autista").data)
    (h3 : startsWithSlash text = false)
    (h4 : (lookupTs w.private_chat_sessions uid).isSome = true ∨ needs_support text = true)
    (h5 : analyze_for_alert text [] = true)
    (h6 : ∀ p, call_llm_api env p ≠ []) :
    (alert_targets (handle_private_message w now uid text env).2).Nodup ∧
    (∀ a, a ∈ alert_targets (handle_private_message w now uid text env).2 ↔
      a ∈ facilitators_of w.db u.groups) ∧
    (∀ a ∈ facilitators_of w.db u.groups,
      (alert_targets (handle_private_message w now uid text env).2).count a = 1) := by
  have h1s : get_user (store_message w.db uid none text now) uid = some u := by
    rw [get_user_store, h1]
  have hprov : provide_individual_support (store_message w.db uid none text now) env uid text =
      (store_ai_interaction (store_message w.db uid none text now),
        some (call_llm_api env (individual_prompt u
          (individual_conversation (store_message w.db uid none text now) uid))),
        analyze_for_alert text []) := by
    unfold provide_individual_support
    rw [h1s]
    simp [h2]
  have hresp := h6 (individual_prompt u
    (individual_conversation (store_message w.db uid none text now) uid))
  have hie : (call_llm_api env (individual_prompt u
      (individual_conversation (store_message w.db uid none text now) uid))).isEmpty = false := by
    revert hresp
    cases call_llm_api env (individual_prompt u
      (individual_conversation (store_message w.db uid none text now) uid)) with
    | nil => intro hr; exact absurd rfl hr
    | cons a as => intro _; rfl
  have h4b : ((lookupTs w.private_chat_sessions uid).isSome || needs_support text) = true := by
    rcases h4 with h4 | h4 <;> simp [h4]
  have heff : (handle_private_message w now uid text env).2 =
      [Effect.store uid none text] ++
        [Effect.supportReply uid (assistant_tag ++ call_llm_api env (individual_prompt u
          (individual_conversation (store_message w.db uid none text now) uid)))] ++
        notify_ats (store_ai_interaction (store_message w.db uid none text now)) u [] u.groups := by
    simp only [handle_private_message, h1s, h2, beq_self_eq_true, if_true, h3,
      Bool.not_false, Bool.true_and, h4b, hprov, hie, Bool.false_eq_true, if_false, h5]
  have hspec := notify_ats_spec (store_ai_interaction (store_message w.db uid none text now)) u
    u.groups []
  have hfac : facilitators_of (store_ai_interaction (store_message w.db uid none text now))
      u.groups = facilitators_of w.db u.groups := rfl
  rw [hfac] at hspec
  have htg : alert_targets (handle_private_message w now uid text env).2 =
      alert_targets (notify_ats (store_ai_interaction (store_message w.db uid none text now))
        u [] u.groups) := by
    rw [heff]
    simp [alert_targets, List.filterMap_append, List.filterMap_cons]
  rw [htg]
  refine ⟨hspec.1, fun a => ?_, fun a ha => ?_⟩
  · rw [hspec.2 a]
    simp
  · exact List.count_eq_one_of_mem hspec.1 ((hspec.2 a).mpr ⟨ha, by simp⟩)

/-- User 2 as a member of three groups, two of which share a creator. -/
def uTwo : UserDoc := ⟨2, ("Ana").data, ("autista").data, [100, 101, 102], sampleProfile⟩

def g101 : Group :=
  ⟨101, ("H").data, ("T").data, ("D").data, 7, [7], 10, true, default_ai_settings⟩

def g102 : Group :=
  ⟨102, ("I").data, ("T").data, ("D").data, 9, [9], 10, true, default_ai_settings⟩

def wTwo : World := ⟨⟨[uTwo, atSample], [gSample, g101, g102], [], [], 0⟩, [], []⟩

/-- Claim C6, witness: `private_alert_fanout` on a sender sharing two groups
with facilitator 7 and one with facilitator 9, for the alerting message
"socorro!" (the exclamation mark opens the support gate) under a failing
oracle: each facilitator is notified exactly once. -/
theorem private_alert_fanout_witness :
    (alert_targets (handle_private_message wTwo 10 2 (("socorro!").data) envFail).2).Nodup ∧
    (alert_targets (handle_private_message wTwo 10 2 (("socorro!").data) envFail).2).count 7
      = 1 ∧
    (alert_targets (handle_private_message wTwo 10 2 (("socorro!").data) envFail).2).count 9
      = 1 :=
  ⟨(private_alert_fanout wTwo 10 2 (("socorro!").data) envFail uTwo (by decide) rfl rfl
      (Or.inr (by decide)) (by decide)
      (fun p => (call_llm_api_fail envFail p (Or.inl rfl)).2)).1,
   (private_alert_fanout wTwo 10 2 (("socorro!").data) envFail uTwo (by decide) rfl rfl
      (Or.inr (by decide)) (by decide)
      (fun p => (call_llm_api_fail envFail p (Or.inl rfl)).2)).2.2 7 (by decide),
   (private_alert_fanout wTwo 10 2 (("socorro!").data) envFail uTwo (by decide) rfl rfl
      (Or.inr (by decide)) (by decide)
      (fun p => (call_llm_api_fail envFail p (Or.inl rfl)).2)).2.2 9 (by decide)⟩

/-- Claim C6, counterexample: the private message "socorro" from a registered
autistic member of group 100 (facilitator 7) satisfies the alert policy, yet
no facilitator notification is produced, because the support gate
(`needs_support` or an open session) never fires for it, so the alert policy
is never consulted. -/
theorem private_alert_requires_support_gate :
    analyze_for_alert (("socorro").data) [] = true ∧
    needs_support (("socorro").data) = false ∧
    ((get_user wSample.db 2).map (fun u => u.role)) = some (("autista").data) ∧
    uSample.groups = [100] ∧
    facilitators_of wSample.db [100] = [7] ∧
    alert_targets (handle_private_message wSample 10 2 (("socorro").data) envOk).2 = [] := by
  refine ⟨by decide, by decide, by decide, rfl, by decide, by decide⟩

/-! ### The group throttle as a trace property -/

/-- One inbound group-chat event as seen by `handle_group_message`. -/
structure GEvent where
  now : Int
  sender : Int
  chat : Int
  chat_type : List Char
  text : List Char
  env : OracleEnv
deriving DecidableEq

/-- Run the group handler over a list of inbound events, collecting
`(chat id, instant)` for every mediator reply sent. -/
def run_group_trace (w : World) : List GEvent → List (Int × Int)
  | [] => []
  | e :: es =>
    let r := handle_group_message w e.now e.sender e.chat e.chat_type e.text e.env
    (r.2.filterMap (fun eff => match eff with
      | Effect.mediatorReply c _ => some (c, e.now)
      | _ => none)) ++ run_group_trace r.1 es

/-- The instants of the mediator replies sent into group `g`. -/
def times_for (g : Int) (tr : List (Int × Int)) : List Int :=
  tr.filterMap (fun p => if p.1 == g then some p.2 else none)

/-- Separation by strictly more than the 5-minute cooldown. -/
def gap_gt (a b : Int) : Prop := minutes5 < b - a

instance : IsTrans Int gap_gt :=
  ⟨fun a b c h1 h2 => by unfold gap_gt minutes5 at h1 h2 ⊢; omega⟩

/-- The chat ids of the mediator replies among a handler's effects. -/
def mr_of (effs : List Effect) : List Int :=
  effs.filterMap (fun e => match e with
    | Effect.mediatorReply c _ => some c
    | _ => none)

/-- One invocation of the group handler either sends no mediator reply and
leaves the throttle table unchanged, or sends exactly one reply into the
handled chat, in which case the throttle window was open and the timestamp is
set to the instant of the event. -/
lemma handle_group_message_mr (w : World) (now uid chat : Int) (ctype text : List Char)
    (env : OracleEnv) :
    (mr_of (handle_group_message w now uid chat ctype text env).2 = [] ∧
      (handle_group_message w now uid chat ctype text env).1.group_message_timestamps =
        w.group_message_timestamps) ∨
    (mr_of (handle_group_message w now uid chat ctype text env).2 = [chat] ∧
      should_ai_intervene chat w.group_message_timestamps now = true ∧
      (handle_group_message w now uid chat ctype text env).1.group_message_timestamps =
        (chat, now) :: w.group_message_timestamps) := by
  unfold handle_group_message
  repeat' (first
    | exact Or.inl ⟨rfl, rfl⟩
    | exact Or.inr ⟨rfl, by assumption, rfl⟩
    | split
    | dsimp only)

lemma pairs_eq_mr (effs : List Effect) (t : Int) :
    effs.filterMap (fun eff => match eff with
      | Effect.mediatorReply c _ => some (c, t)
      | _ => none) = (mr_of effs).map (fun c => (c, t)) := by
  induction effs with
  | nil => rfl
  | cons a as ih => cases a <;> simp [mr_of, List.filterMap_cons, ih]

lemma mr_match_eq (e : Effect) (c : Int) :
    (match e with
      | Effect.mediatorReply c2 _ => some c2
      | _ => none) = some c ↔ ∃ s, e = Effect.mediatorReply c s := by
  cases e <;> simp [eq_comm]

lemma mr_of_mem (effs : List Effect) (c : Int) :
    c ∈ mr_of effs ↔ ∃ s, Effect.mediatorReply c s ∈ effs := by
  unfold mr_of
  rw [List.mem_filterMap]
  constructor
  · rintro ⟨e, he, hm⟩
    obtain ⟨s, rfl⟩ := (mr_match_eq e c).mp hm
    exact ⟨s, he⟩
  · rintro ⟨s, hs⟩
    exact ⟨Effect.mediatorReply c s, hs, rfl⟩

lemma lookupTs_cons_self (l : List (Int × Int)) (k v : Int) :
    lookupTs ((k, v) :: l) k = some v := by
  simp [lookupTs, List.find?]

lemma lookupTs_cons_ne (l : List (Int × Int)) (k v g : Int) (h : g ≠ k) :
    lookupTs ((k, v) :: l) g = lookupTs l g := by
  have hb : (k == g) = false := by simp [Ne.symm h]
  simp [lookupTs, List.find?, hb]

/-- Core invariant: along any run, the last-intervention timestamp recorded
for `g` (if any) followed by the instants of the replies sent into `g` forms
a chain in which consecutive elements are separated by more than 5 minutes. -/
lemma run_group_trace_chain (evs : List GEvent) : ∀ (w : World) (g : Int),
    List.Chain' gap_gt ((lookupTs w.group_message_timestamps g).toList
      ++ times_for g (run_group_trace w evs)) := by
  induction evs with
  | nil =>
    intro w g
    simp only [run_group_trace, times_for, List.filterMap_nil, List.append_nil]
    cases lookupTs w.group_message_timestamps g <;> simp
  | cons e es ih =>
    intro w g
    have hstep := handle_group_message_mr w e.now e.sender e.chat e.chat_type e.text e.env
    set r := handle_group_message w e.now e.sender e.chat e.chat_type e.text e.env with hr
    have hun : run_group_trace w (e :: es) =
        (r.2.filterMap (fun eff => match eff with
          | Effect.mediatorReply c _ => some (c, e.now)
          | _ => none)) ++ run_group_trace r.1 es := rfl
    rcases hstep with ⟨hmr, hts⟩ | ⟨hmr, hint, hts⟩
    · rw [hun, pairs_eq_mr, hmr]
      simp only [List.map_nil, List.nil_append]
      have hn := ih r.1 g
      rwa [hts] at hn
    · rw [hun, pairs_eq_mr, hmr]
      simp only [List.map_cons, List.map_nil]
      by_cases hgc : g = e.chat
      · subst hgc
        have htf : times_for e.chat ((e.chat, e.now) :: run_group_trace r.1 es) =
            e.now :: times_for e.chat (run_group_trace r.1 es) := by
          simp [times_for, List.filterMap_cons]
        have hn := ih r.1 e.chat
        rw [hts, lookupTs_cons_self] at hn
        rw [List.singleton_append, htf]
        cases hl : lookupTs w.group_message_timestamps e.chat with
        | none =>
          simpa using hn
        | some t =>
          have hgap : gap_gt t e.now := by
            simpa [should_ai_intervene, hl, gap_gt] using hint
          simp only [Option.toList_some, List.cons_append, List.nil_append]
          exact List.Chain'.cons hgap (by simpa using hn)
      · have htf : times_for g ((e.chat, e.now) :: run_group_trace r.1 es) =
            times_for g (run_group_trace r.1 es) := by
          simp [times_for, List.filterMap_cons, Ne.symm hgc]
        have hn := ih r.1 g
        rw [hts, lookupTs_cons_ne _ _ _ _ hgc] at hn
        rw [List.singleton_append, htf]
        exact hn

/-- Claim C5 (confirmed): for every group, along any sequence of handled
group messages, the instants of the automated mediator replies sent into that
group are pairwise separated by strictly more than 5 minutes; a reply is sent
only when no last-intervention timestamp exists for the group or more than 5
minutes have elapsed since it, and the timestamp is set to the instant of the
event whenever a reply is sent (and is untouched otherwise). -/
theorem mediator_throttle_five_minutes :
    (∀ w evs g, List.Pairwise gap_gt (times_for g (run_group_trace w evs))) ∧
    (∀ w now uid chat ctype text env c s,
      Effect.mediatorReply c s ∈ (handle_group_message w now uid chat ctype text env).2 →
      c = chat ∧ should_ai_intervene chat w.group_message_timestamps now = true ∧
      (handle_group_message w now uid chat ctype text env).1.group_message_timestamps =
        (chat, now) :: w.group_message_timestamps) ∧
    (∀ w now uid chat ctype text env,
      (∀ c s, Effect.mediatorReply c s ∉ (handle_group_message w now uid chat ctype text env).2) →
      (handle_group_message w now uid chat ctype text env).1.group_message_timestamps =
        w.group_message_timestamps) := by
  refine ⟨?_, ?_, ?_⟩
  · intro w evs g
    have hp : List.Pairwise gap_gt ((lookupTs w.group_message_timestamps g).toList
        ++ times_for g (run_group_trace w evs)) :=
      List.chain'_iff_pairwise.mp (run_group_trace_chain evs w g)
    exact List.Pairwise.sublist (List.sublist_append_right _ _) hp
  · intro w now uid chat ctype text env c s hmem
    have hc : c ∈ mr_of (handle_group_message w now uid chat ctype text env).2 :=
      (mr_of_mem _ c).mpr ⟨s, hmem⟩
    rcases handle_group_message_mr w now uid chat ctype text env with
      ⟨hmr, hts⟩ | ⟨hmr, hint, hts⟩
    · rw [hmr] at hc
      simp at hc
    · rw [hmr] at hc
      simp at hc
      exact ⟨hc, hint, hts⟩
  · intro w now uid chat ctype text env hno
    rcases handle_group_message_mr w now uid chat ctype text env with
      ⟨hmr, hts⟩ | ⟨hmr, hint, hts⟩
    · exact hts
    · exfalso
      have hc : chat ∈ mr_of (handle_group_message w now uid chat ctype text env).2 := by
        rw [hmr]
        simp
      obtain ⟨s, hs⟩ := (mr_of_mem _ chat).mp hc
      exact hno chat s hs

/-- Claim C5, witness: on a concrete store with the mediator enabled and an
open throttle window, the handler sends a reply, and
`mediator_throttle_five_minutes` yields the open-window condition and the
updated timestamp table. -/
theorem mediator_throttle_witness :
    (100 : Int) = 100 ∧
    should_ai_intervene 100 wSample.group_message_timestamps 10 = true ∧
    (handle_group_message wSample 10 2 100 (("group").data) (("oi").data)
      envOk).1.group_message_timestamps = (100, 10) :: wSample.group_message_timestamps :=
  mediator_throttle_five_minutes.2.1 wSample 10 2 100 (("group").data) (("oi").data) envOk
    100 (mediator_tag ++ ("ok").data) (by decide)

end AC
